import Mathlib

/-!
Verification of the OBS-Indicator overlay script (OBSIndicator.py).

Python floats are modelled as rationals (ℚ), Python ints as ℕ/ℤ.
Qt types: QPointF is a pair of rationals, QPoint a pair of integers;
QPointF.isNull means both coordinates are zero.
-/

/-- Enum `Corner` from the source (five string values). -/
inductive Corner where
  | top_left
  | top_right
  | bottom_left
  | bottom_right
  | off
deriving DecidableEq, Repr

/-- Enum `Shape` from the source. -/
inductive Shape where
  | circle
  | square
  | rounded
deriving DecidableEq, Repr

/-- Animation.SPEED = 0.15 -/
def Animation.SPEED : ℚ := 15 / 100

/-- Animation.SNAP_THRESHOLD = 0.01 -/
def Animation.SNAP_THRESHOLD : ℚ := 1 / 100

/-- Animation.POSITION_SNAP_THRESHOLD = 0.5 -/
def Animation.POSITION_SNAP_THRESHOLD : ℚ := 1 / 2

/-- Draw.DIM_OPACITY = 0.3 -/
def Draw.DIM_OPACITY : ℚ := 3 / 10

/-- def lerp(start, end, alpha): return start + (end - start) * alpha -/
def lerp (start stop alpha : ℚ) : ℚ := start + (stop - start) * alpha

/-- Python bool coerced to float via float(new_target) in set_target. -/
def boolToRat (b : Bool) : ℚ := if b then 1 else 0

/-- Python int() truncation toward zero on a rational. -/
def pyInt (q : ℚ) : ℤ := if q < 0 then ⌈q⌉ else ⌊q⌋

/-- dataclass AnimatedValue: current and target floats. -/
structure AnimatedValue where
  current : ℚ := 0
  target : ℚ := 0
deriving DecidableEq, Repr

/-- AnimatedValue.set_target (non-immediate form used in the tick). -/
def AnimatedValue.set_target (v : AnimatedValue) (new_target : ℚ) : AnimatedValue :=
  { v with target := new_target }

/-- AnimatedValue.set_target with immediate=True. -/
def AnimatedValue.set_target_immediate (v : AnimatedValue) (new_target : ℚ) : AnimatedValue :=
  { v with current := new_target, target := new_target }

/-- AnimatedValue.update(speed, enabled): returns the new value and the
  reported change flag (the Python method mutates self and returns bool). -/
def AnimatedValue.update (v : AnimatedValue) (speed : ℚ) (enabled : Bool) :
    AnimatedValue × Bool :=
  if v.current = v.target then
    (v, false)
  else if ¬enabled ∨ |v.current - v.target| < Animation.SNAP_THRESHOLD then
    ({ v with current := v.target }, true)
  else
    ({ v with current := lerp v.current v.target speed }, true)

/-- QPointF modelled as a pair of rationals; default constructor is (0, 0). -/
structure Point where
  x : ℚ := 0
  y : ℚ := 0
deriving DecidableEq, Repr

/-- QPointF.isNull(): both coordinates are zero. -/
def Point.isNull (p : Point) : Bool := p.x = 0 ∧ p.y = 0

/-- def obs_color_to_rgb(obs_color): ((obs_color & 0xFF) << 16) | (obs_color & 0xFF00) | ((obs_color >> 16) & 0xFF) -/
def obs_color_to_rgb (obs_color : ℕ) : ℕ :=
  ((obs_color &&& 0xFF) <<< 16) ||| (obs_color &&& 0xFF00) ||| ((obs_color >>> 16) &&& 0xFF)

/-- def rgb_to_obs_color(rgb_color): (0xFF << 24) | ((rgb_color & 0xFF) << 16) | (rgb_color & 0xFF00) | ((rgb_color >> 16) & 0xFF) -/
def rgb_to_obs_color (rgb_color : ℕ) : ℕ :=
  (0xFF <<< 24) ||| ((rgb_color &&& 0xFF) <<< 16) ||| (rgb_color &&& 0xFF00) |||
    ((rgb_color >>> 16) &&& 0xFF)

/-- def ease_in_out_cubic(t) from the source. -/
def ease_in_out_cubic (t : ℚ) : ℚ :=
  let t2 := t * 2
  if t2 < 1 then (1 / 2) * t2 * t2 * t2
  else
    let t3 := t2 - 2
    (1 / 2) * (t3 * t3 * t3 + 2)

/-- def ease_out_cubic(t) from the source. -/
def ease_out_cubic (t : ℚ) : ℚ :=
  let t1 := t - 1
  t1 * t1 * t1 + 1

/-- Settings snapshot (DEFAULT_SETTINGS keys used by the render core; the
  sound path and volume are external audio I/O and carry no render state). -/
structure Settings where
  corner_rec : Corner := Corner.top_right
  corner_buf : Corner := Corner.top_right
  size : ℕ := 10
  margin : ℕ := 10
  opacity : ℕ := 50
  rec_color : ℕ := 0xFF5555
  rec_pause_color : ℕ := 0xFFAA00
  buf_color : ℕ := 0x55FF55
  buf_saved_color : ℕ := 0x5555FF
  bg_opacity : ℕ := 50
  bg_size_percent : ℕ := 300
  indicator_shape : Shape := Shape.circle
  bg_shape : Shape := Shape.circle
  fade_effect : Bool := true
  smooth_position : Bool := true
  animate_pause : Bool := true
  animate_checkmark : Bool := true
  checkmark_duration : ℚ := 3 / 2
  flash_on_save : Bool := false
  flash_color : ℕ := 0xFFFFFF
  flash_duration : ℚ := 1 / 5
  rec_border_enabled : Bool := false
  rec_pause_border_enabled : Bool := true
  rec_border_color : ℕ := 0xFF5555
  rec_pause_border_color : ℕ := 0xFFAA00
  buf_border_enabled : Bool := false
  buf_save_border_enabled : Bool := true
  buf_border_color : ℕ := 0x55FF55
  buf_save_border_color : ℕ := 0x5555FF
  border_width : ℕ := 5
deriving DecidableEq, Repr

/-- DEFAULT_SETTINGS dictionary (all structure defaults are its values). -/
def DEFAULT_SETTINGS : Settings := {}

/-- dataclass RecordingState (IndicatorState fields inlined, name = rec). -/
structure RecordingState where
  active : Bool := false
  paused : Bool := false
  visibility : AnimatedValue := {}
  pause_icon : AnimatedValue := {}
  border_width : AnimatedValue := {}
  position : Point := {}
  target_position : Point := {}
deriving DecidableEq, Repr

/-- dataclass BufferState (IndicatorState fields inlined, name = buf). -/
structure BufferState where
  active : Bool := false
  saved : Bool := false
  saved_time : ℚ := 0
  visibility : AnimatedValue := {}
  checkmark_icon : AnimatedValue := {}
  dim_effect : AnimatedValue := { current := 1, target := 1 }
  flash_effect : AnimatedValue := {}
  flash_start_time : ℚ := 0
  border_width : AnimatedValue := {}
  save_border_width : AnimatedValue := {}
  position : Point := {}
  target_position : Point := {}
deriving DecidableEq, Repr

/-- Primary-screen geometry; `current_screen_geometry` is a QRect whose
  default is invalid.  QRect.isValid means positive width and height. -/
structure ScreenGeometry where
  width : ℤ := 0
  height : ℤ := 0
deriving DecidableEq, Repr

/-- QRect.isValid() for the screen geometry rectangle. -/
def ScreenGeometry.isValid (g : ScreenGeometry) : Bool :=
  0 < g.width ∧ 0 < g.height

/-- OverlayWindow._calculate_position(corner, index).  The positions cache is
  a pure memoisation of this function for fixed settings and geometry, so it
  is modelled by the function itself.  bg_size = int(size * bg_size_percent
  / 100) truncates the nonnegative quotient, i.e. ℕ division. -/
def calculate_position (g : ScreenGeometry) (s : Settings) (corner : Corner) (index : ℕ) :
    Option (ℤ × ℤ) :=
  if ¬g.isValid ∨ corner = Corner.off then none
  else
    let size := s.size
    let margin := s.margin
    let bg_size := size * s.bg_size_percent / 100
    let radius := bg_size / 2
    let offset := index * (bg_size + margin)
    match corner with
    | Corner.top_left => some ((margin + radius + offset : ℕ), (margin + radius : ℕ))
    | Corner.top_right => some (g.width - margin - radius - offset, (margin + radius : ℕ))
    | Corner.bottom_left => some ((margin + radius + offset : ℕ), g.height - margin - radius)
    | Corner.bottom_right => some (g.width - margin - radius - offset, g.height - margin - radius)
    | Corner.off => none

/-- Slot index chosen in _update_indicator_position: the buffer indicator
  takes index 1 when recording is active on the same (non-off) corner. -/
def indicator_index (s : Settings) (isBuf : Bool) (rec_active : Bool) : ℕ :=
  let is_rec_active_on_same_corner :=
    rec_active ∧ s.corner_rec = s.corner_buf ∧ s.corner_rec ≠ Corner.off
  if isBuf ∧ is_rec_active_on_same_corner then 1 else 0

/-- OverlayWindow._update_indicator_position(state): returns the new
  (position, target_position) pair of the indicator. -/
def update_indicator_position (g : ScreenGeometry) (s : Settings) (isBuf : Bool)
    (rec_active : Bool) (position target_position : Point) : Point × Point :=
  let corner_setting := if isBuf then s.corner_buf else s.corner_rec
  if corner_setting = Corner.off then (position, {})
  else
    let index := indicator_index s isBuf rec_active
    match calculate_position g s corner_setting index with
    | none => (position, target_position)
    | some (px, py) =>
      let target_pos : Point := { x := px, y := py }
      if target_position ≠ target_pos then
        (if position.isNull then target_pos else position, target_pos)
      else (position, target_position)

/-- OverlayWindow._update_position_animation(state): returns the new
  position together with the reported change flag. -/
def update_position_animation (s : Settings) (position target_position : Point) :
    Point × Bool :=
  if position = target_position then (position, false)
  else if ¬s.smooth_position ∨ target_position.isNull then (target_position, true)
  else
    let new_x := lerp position.x target_position.x Animation.SPEED
    let new_y := lerp position.y target_position.y Animation.SPEED
    let new_pos :=
      if |new_x - target_position.x| < Animation.POSITION_SNAP_THRESHOLD ∧
          |new_y - target_position.y| < Animation.POSITION_SNAP_THRESHOLD then
        target_position
      else
        ({ x := new_x, y := new_y } : Point)
    if new_pos ≠ position then (new_pos, true) else (position, false)

set_option maxHeartbeats 1000000 in
/-- Target-refresh phase of OverlayWindow.update_animations (source lines
  374-415): refresh targets, clear an expired saved flag, flash and border
  targets, and recompute indicator positions.  `now` is time.monotonic(). -/
def tickTargets (g : ScreenGeometry) (s : Settings) (now : ℚ)
    (rs : RecordingState) (bs : BufferState) : RecordingState × BufferState :=
  let rs := { rs with visibility := rs.visibility.set_target (boolToRat rs.active),
                      pause_icon := rs.pause_icon.set_target (boolToRat rs.paused) }
  let bs :=
    if bs.saved ∧ now - bs.saved_time > s.checkmark_duration then
      { bs with saved := false, saved_time := 0 }
    else bs
  let bs := { bs with visibility := bs.visibility.set_target (boolToRat bs.active),
                      checkmark_icon := bs.checkmark_icon.set_target (boolToRat bs.saved) }
  let dim_target := if rs.active ∧ rs.paused then Draw.DIM_OPACITY else 1
  let bs := { bs with dim_effect := bs.dim_effect.set_target dim_target }
  let bs :=
    if bs.flash_start_time > 0 then
      if now - bs.flash_start_time > s.flash_duration then
        let bs := { bs with flash_effect := bs.flash_effect.set_target 0 }
        if bs.flash_effect.current < Animation.SNAP_THRESHOLD then
          { bs with flash_start_time := 0 }
        else bs
      else bs
    else bs
  let rec_border_on := s.rec_border_enabled ∧ rs.active
  let buf_border_on := s.buf_border_enabled ∧ bs.active
  let pause_border_on :=
    ¬s.rec_border_enabled ∧ s.rec_pause_border_enabled ∧ rs.active ∧ rs.paused
  let save_border_on := ¬s.buf_border_enabled ∧ s.buf_save_border_enabled ∧ bs.saved
  let target_rec_border_width : ℚ :=
    if rec_border_on ∨ pause_border_on then s.border_width else 0
  let rs := { rs with border_width := rs.border_width.set_target target_rec_border_width }
  let bs := { bs with
    border_width := bs.border_width.set_target (if buf_border_on then (s.border_width : ℚ) else 0),
    save_border_width :=
      bs.save_border_width.set_target (if save_border_on then (s.border_width : ℚ) else 0) }
  let recPos := update_indicator_position g s false rs.active rs.position rs.target_position
  let rs := { rs with position := recPos.1, target_position := recPos.2 }
  let bufPos := update_indicator_position g s true rs.active bs.position bs.target_position
  let bs := { bs with position := bufPos.1, target_position := bufPos.2 }
  (rs, bs)

/-- Value-advancing phase of OverlayWindow.update_animations (source lines
  417-433): advance every AnimatedValue and both positions, or-ing the
  reported change flags into `updated`; the Bool is the repaint request. -/
def tickValues (s : Settings) (rs : RecordingState) (bs : BufferState) :
    (RecordingState × BufferState) × Bool :=
  let recVis := rs.visibility.update Animation.SPEED s.fade_effect
  let recPos := update_position_animation s rs.position rs.target_position
  let bufVis := bs.visibility.update Animation.SPEED s.fade_effect
  let bufPos := update_position_animation s bs.position bs.target_position
  let pauseIcon := rs.pause_icon.update Animation.SPEED s.animate_pause
  let checkIcon := bs.checkmark_icon.update Animation.SPEED s.animate_checkmark
  let dim := bs.dim_effect.update Animation.SPEED s.fade_effect
  let flash_speed_multiplier : ℚ := if bs.flash_effect.target = 1 then 4 else 1
  let flash := bs.flash_effect.update (Animation.SPEED * flash_speed_multiplier) true
  let recBorder := rs.border_width.update Animation.SPEED true
  let bufBorder := bs.border_width.update Animation.SPEED true
  let saveBorder := bs.save_border_width.update Animation.SPEED true
  (({ rs with visibility := recVis.1, position := recPos.1,
              pause_icon := pauseIcon.1, border_width := recBorder.1 },
    { bs with visibility := bufVis.1, position := bufPos.1,
              checkmark_icon := checkIcon.1, dim_effect := dim.1,
              flash_effect := flash.1, border_width := bufBorder.1,
              save_border_width := saveBorder.1 }),
   recVis.2 || recPos.2 || bufVis.2 || bufPos.2 || pauseIcon.2 || checkIcon.2 ||
     dim.2 || flash.2 || recBorder.2 || bufBorder.2 || saveBorder.2)

/-- OverlayWindow.update_animations: a no-op when `closing`; otherwise the
  target-refresh phase followed by the value-advancing phase.  The returned
  Bool is `updated`, i.e. whether self.update() (a repaint) was requested. -/
def update_animations (closing : Bool) (g : ScreenGeometry) (s : Settings) (now : ℚ)
    (rs : RecordingState) (bs : BufferState) : (RecordingState × BufferState) × Bool :=
  if closing then ((rs, bs), false)
  else
    let st := tickTargets g s now rs bs
    tickValues s st.1 st.2

/-- OverlayWindow.on_rec_status_changed(active, paused). -/
def on_rec_status_changed (closing : Bool) (rs : RecordingState) (active paused : Bool) :
    RecordingState :=
  if closing then rs else { rs with active := active, paused := paused }

/-- OverlayWindow.on_buf_status_changed(active, saved).  `now` is
  time.monotonic(); sound playback is external I/O with no state here. -/
def on_buf_status_changed (closing : Bool) (s : Settings) (now : ℚ) (bs : BufferState)
    (active saved : Bool) : BufferState :=
  if closing then bs
  else if saved then
    let bs := { bs with active := true, saved := true, saved_time := now }
    if s.flash_on_save then
      { bs with flash_start_time := now, flash_effect := bs.flash_effect.set_target 1 }
    else bs
  else { bs with active := active }

/-- Host lifecycle events handled by event_handler; `other` stands for every
  OBS frontend event value outside the seven-entry dict. -/
inductive FrontendEvent where
  | recording_starting
  | recording_stopped
  | recording_paused
  | recording_unpaused
  | replay_buffer_started
  | replay_buffer_stopped
  | replay_buffer_saved
  | other
deriving DecidableEq, Repr

/-- Queued signals emitted by event_handler through the SignalEmitter. -/
inductive Signal where
  | rec_status_changed (active paused : Bool)
  | buf_status_changed (active saved : Bool)
deriving DecidableEq, Repr

/-- def event_handler(event): the event_map dict lookup; `none` means the
  dict lookup missed and no signal is emitted. -/
def event_handler : FrontendEvent → Option Signal
  | FrontendEvent.recording_starting => some (Signal.rec_status_changed true false)
  | FrontendEvent.recording_stopped => some (Signal.rec_status_changed false false)
  | FrontendEvent.recording_paused => some (Signal.rec_status_changed true true)
  | FrontendEvent.recording_unpaused => some (Signal.rec_status_changed true false)
  | FrontendEvent.replay_buffer_started => some (Signal.buf_status_changed true false)
  | FrontendEvent.replay_buffer_stopped => some (Signal.buf_status_changed false false)
  | FrontendEvent.replay_buffer_saved => some (Signal.buf_status_changed true true)
  | FrontendEvent.other => none

/-- Qt qRound used by QPointF.toPoint: add half a unit away from zero and
  truncate toward zero. -/
def qRound (q : ℚ) : ℤ := if q < 0 then pyInt (q - 1 / 2) else pyInt (q + 1 / 2)

/-- QPointF.toPoint(): round both coordinates. -/
def Point.toPoint (p : Point) : ℤ × ℤ := (qRound p.x, qRound p.y)

/-- Drawing primitives emitted by the paint routines.  The checkmark's
  transcendental pop-scale transform (math.sin) and the polyline vertex
  coordinates carry no further guards, so the icon ops record the shared
  scalar parameters the source computes before drawing. -/
inductive DrawOp where
  | shape (sh : Shape) (rx ry rw rh : ℤ) (rgb : ℕ) (alpha : ℤ)
  | pause_bars (rgb : ℕ) (alpha : ℤ) (pen_width : ℤ) (bar_spacing half_height : ℚ)
  | checkmark_path (rgb : ℕ) (alpha : ℤ) (pen_width : ℤ) (eased : ℚ) (appearing : Bool)
deriving DecidableEq, Repr

/-- QColor.setAlpha(max(0, min(a, 255))) clamp. -/
def clampAlpha (a : ℤ) : ℤ := max 0 (min a 255)

/-- OverlayWindow._draw_shape: skips the fill when color.alpha() < 1. -/
def draw_shape (sh : Shape) (rx ry rw rh : ℤ) (rgb : ℕ) (alpha : ℤ) : Option DrawOp :=
  if alpha < 1 then none else some (DrawOp.shape sh rx ry rw rh rgb alpha)

/-- OverlayWindow._draw_background(pos, anim_value). -/
def draw_background (s : Settings) (pos : ℤ × ℤ) (anim_value : ℚ) : Option DrawOp :=
  let bg_size := s.size * s.bg_size_percent / 100
  if bg_size ≤ 0 then none
  else
    let bg_alpha : ℚ := s.bg_opacity / 100
    let alpha := clampAlpha (pyInt (255 * anim_value * bg_alpha))
    draw_shape s.bg_shape (pos.1 - bg_size / 2) (pos.2 - bg_size / 2) bg_size bg_size 0 alpha

/-- OverlayWindow._draw_indicator(pos, master_anim, rgb_color, opacity_multiplier). -/
def draw_indicator (s : Settings) (pos : ℤ × ℤ) (master_anim : ℚ) (rgb_color : ℕ)
    (opacity_multiplier : ℚ) : Option DrawOp :=
  if s.size ≤ 0 then none
  else
    let base_alpha : ℚ := master_anim * (s.opacity / 100)
    let final_alpha := clampAlpha (pyInt (255 * base_alpha * opacity_multiplier))
    draw_shape s.indicator_shape (pos.1 - s.size / 2) (pos.2 - s.size / 2) s.size s.size
      rgb_color final_alpha

/-- OverlayWindow._draw_pause_icon(pos, icon_progress, master_anim, rgb_color);
  PAUSE_PEN_WIDTH_RATIO = 0.18, PAUSE_BAR_HEIGHT_RATIO = 0.65,
  PAUSE_BAR_SPACING_RATIO = 0.35. -/
def draw_pause_icon (s : Settings) (icon_progress master_anim : ℚ) (rgb_color : ℕ) :
    Option DrawOp :=
  if s.size ≤ 0 then none
  else
    let eased_progress := ease_in_out_cubic icon_progress
    let base_alpha : ℚ := master_anim * (s.opacity / 100)
    let final_alpha := clampAlpha (pyInt (255 * base_alpha * icon_progress))
    if final_alpha < 1 then none
    else
      let pen_width := max 2 (pyInt (s.size * (18 / 100 : ℚ)))
      let bar_height : ℚ := s.size * (65 / 100)
      let bar_spacing : ℚ := s.size * (35 / 100) * eased_progress
      some (DrawOp.pause_bars rgb_color final_alpha pen_width bar_spacing
        (bar_height * eased_progress / 2))

/-- OverlayWindow._draw_checkmark(pos, icon_progress, master_anim, rgb_color,
  dim_factor); CHECKMARK_PEN_WIDTH_RATIO = 0.2; is_appearing reads the
  checkmark AnimatedValue target. -/
def draw_checkmark (s : Settings) (icon_progress master_anim : ℚ) (rgb_color : ℕ)
    (dim_factor : ℚ) (is_appearing : Bool) : Option DrawOp :=
  let eased_progress := ease_in_out_cubic icon_progress
  let base_alpha : ℚ := master_anim * (s.opacity / 100)
  let final_alpha := clampAlpha (pyInt (255 * base_alpha * dim_factor * eased_progress))
  if final_alpha < 1 then none
  else
    let pen_width := max 2 (pyInt (s.size * (20 / 100 : ℚ)))
    some (DrawOp.checkmark_path rgb_color final_alpha pen_width eased_progress is_appearing)

/-- OverlayWindow._paint_indicator for the recording state: the list of draw
  operations it performs (empty list = nothing is drawn). -/
def paint_indicator_rec (s : Settings) (rs : RecordingState) : List DrawOp :=
  if rs.visibility.current < Animation.SNAP_THRESHOLD then []
  else
    let pos := rs.position.toPoint
    let master_anim := rs.visibility.current
    let dim_factor : ℚ := 1
    let bg := draw_background s pos (master_anim * dim_factor)
    let pause_progress := rs.pause_icon.current
    let main_opacity := 1 - pause_progress
    let pauseOp :=
      if pause_progress > Animation.SNAP_THRESHOLD then
        draw_pause_icon s pause_progress master_anim s.rec_pause_color
      else none
    let indOp :=
      if main_opacity > Animation.SNAP_THRESHOLD then
        draw_indicator s pos master_anim s.rec_color main_opacity
      else none
    bg.toList ++ pauseOp.toList ++ indOp.toList

/-- OverlayWindow._paint_indicator for the buffer state: the list of draw
  operations it performs (empty list = nothing is drawn). -/
def paint_indicator_buf (s : Settings) (bs : BufferState) : List DrawOp :=
  if bs.visibility.current < Animation.SNAP_THRESHOLD then []
  else
    let pos := bs.position.toPoint
    let master_anim := bs.visibility.current
    let dim_factor := bs.dim_effect.current
    let bg := draw_background s pos (master_anim * dim_factor)
    let checkmark_progress := bs.checkmark_icon.current
    let main_opacity := 1 - checkmark_progress
    let indOp :=
      if main_opacity > Animation.SNAP_THRESHOLD then
        draw_indicator s pos master_anim s.buf_color (main_opacity * dim_factor)
      else none
    let checkOp :=
      if checkmark_progress > Animation.SNAP_THRESHOLD then
        draw_checkmark s checkmark_progress master_anim s.buf_saved_color dim_factor
          (bs.checkmark_icon.target = 1)
      else none
    bg.toList ++ indOp.toList ++ checkOp.toList

/-- Iteration of AnimatedValue.update at SPEED with animation enabled,
  starting from current = 0, target = 1 (the spec's convergence scenario). -/
def updateIter : ℕ → AnimatedValue
  | 0 => { current := 0, target := 1 }
  | n + 1 => ((updateIter n).update Animation.SPEED true).1

/-- Settled/idle overlay state: every AnimatedValue has current = target and
  both indicator positions equal their target positions. -/
def animSettled (rs : RecordingState) (bs : BufferState) : Prop :=
  rs.visibility.current = rs.visibility.target ∧
  rs.pause_icon.current = rs.pause_icon.target ∧
  rs.border_width.current = rs.border_width.target ∧
  rs.position = rs.target_position ∧
  bs.visibility.current = bs.visibility.target ∧
  bs.checkmark_icon.current = bs.checkmark_icon.target ∧
  bs.dim_effect.current = bs.dim_effect.target ∧
  bs.flash_effect.current = bs.flash_effect.target ∧
  bs.border_width.current = bs.border_width.target ∧
  bs.save_border_width.current = bs.save_border_width.target ∧
  bs.position = bs.target_position

instance (rs : RecordingState) (bs : BufferState) : Decidable (animSettled rs bs) := by
  unfold animSettled; infer_instance

/-- Some animated quantity (an AnimatedValue current or a position) differs
  between the pre- and post-value-phase states, listed in the order the
  value phase advances them. -/
def animChanged (rs rs' : RecordingState) (bs bs' : BufferState) : Prop :=
  (((((((((rs'.visibility.current ≠ rs.visibility.current ∨
  rs'.position ≠ rs.position) ∨
  bs'.visibility.current ≠ bs.visibility.current) ∨
  bs'.position ≠ bs.position) ∨
  rs'.pause_icon.current ≠ rs.pause_icon.current) ∨
  bs'.checkmark_icon.current ≠ bs.checkmark_icon.current) ∨
  bs'.dim_effect.current ≠ bs.dim_effect.current) ∨
  bs'.flash_effect.current ≠ bs.flash_effect.current) ∨
  rs'.border_width.current ≠ rs.border_width.current) ∨
  bs'.border_width.current ≠ bs.border_width.current) ∨
  bs'.save_border_width.current ≠ bs.save_border_width.current

/-- C1: AnimatedValue.update(speed, enabled) reports no change and leaves the
  value intact when current already equals target; otherwise, when animation is
  disabled or the residual distance is below the 0.01 snap threshold, current
  is set exactly to target (snap, change reported); in the remaining case
  current moves toward target by linear interpolation
  current + (target - current) * speed.  In particular one update call with the
  toggle disabled forces current = target regardless of prior distance. -/
theorem C1_update_behaviour (v : AnimatedValue) (speed : ℚ) (enabled : Bool) :
    (v.current = v.target → v.update speed enabled = (v, false)) ∧
    (v.current ≠ v.target → (enabled = false ∨ |v.current - v.target| < 1 / 100) →
      (v.update speed enabled).1.current = v.target ∧ (v.update speed enabled).2 = true) ∧
    (v.current ≠ v.target → enabled = true → ¬|v.current - v.target| < 1 / 100 →
      (v.update speed enabled).1.current = v.current + (v.target - v.current) * speed ∧
      (v.update speed enabled).2 = true) ∧
    (v.update speed false).1.current = v.target := by
  refine ⟨?_, ?_, ?_, ?_⟩
  · intro h
    simp [AnimatedValue.update, h]
  · intro h h2
    have hc : ¬enabled = true ∨ |v.current - v.target| < Animation.SNAP_THRESHOLD := by
      rcases h2 with h2 | h2
      · exact Or.inl (by simp [h2])
      · exact Or.inr (by simpa [Animation.SNAP_THRESHOLD] using h2)
    unfold AnimatedValue.update
    rw [if_neg h, if_pos hc]
    exact ⟨rfl, rfl⟩
  · intro h he hlt
    have hc : ¬(¬enabled = true ∨ |v.current - v.target| < Animation.SNAP_THRESHOLD) := by
      refine not_or.mpr ⟨by simp [he], by simpa [Animation.SNAP_THRESHOLD] using hlt⟩
    unfold AnimatedValue.update
    rw [if_neg h, if_neg hc]
    exact ⟨by simp [lerp], rfl⟩
  · by_cases h : v.current = v.target
    · simp [AnimatedValue.update, h]
    · simp [AnimatedValue.update, h]

/-- C1 witness: the lerp branch evaluated at current = 0, target = 1,
  speed = 0.15 with animation enabled. -/
theorem C1_witness :
    ((0 : ℚ) ≠ 1 ∧ (1 : ℚ) = 1 ∧ ¬|(0 : ℚ) - 1| < 1 / 100) ∧
    ((AnimatedValue.update { current := 0, target := 1 } (3 / 20) true).1.current =
      0 + (1 - 0) * (3 / 20)) := by
  refine ⟨⟨by norm_num, rfl, by norm_num⟩, ?_⟩
  exact ((C1_update_behaviour { current := 0, target := 1 } (3 / 20) true).2.2.1
    (by norm_num) rfl (by norm_num)).1


lemma updateIter_target (n : ℕ) : (updateIter n).target = 1 := by
  induction n with
  | zero => rfl
  | succ n ih =>
    show (((updateIter n).update Animation.SPEED true).1).target = 1
    unfold AnimatedValue.update
    split_ifs <;> simp [ih]

lemma updateIter_bounds (n : ℕ) :
    0 ≤ (updateIter n).current ∧ (updateIter n).current ≤ 1 := by
  induction n with
  | zero => norm_num [updateIter]
  | succ n ih =>
    obtain ⟨h0, h1⟩ := ih
    have ht := updateIter_target n
    show 0 ≤ (((updateIter n).update Animation.SPEED true).1).current ∧
      (((updateIter n).update Animation.SPEED true).1).current ≤ 1
    unfold AnimatedValue.update
    split_ifs with hc hs
    · exact ⟨h0, h1⟩
    · rw [ht]; norm_num
    · simp only [ht, lerp, Animation.SPEED]
      constructor <;> nlinarith [h0, h1]

lemma updateIter_mono (n : ℕ) : (updateIter n).current ≤ (updateIter (n + 1)).current := by
  obtain ⟨h0, h1⟩ := updateIter_bounds n
  have ht := updateIter_target n
  show (updateIter n).current ≤ (((updateIter n).update Animation.SPEED true).1).current
  unfold AnimatedValue.update
  split_ifs with hc hs
  · exact le_refl _
  · rw [ht]; exact h1
  · simp only [ht, lerp, Animation.SPEED]
    nlinarith [h0, h1]

lemma updateIter_closed (n : ℕ) (h : n ≤ 29) :
    updateIter n = { current := 1 - (17 / 20 : ℚ) ^ n, target := 1 } := by
  induction n with
  | zero => norm_num [updateIter]
  | succ n ih =>
    have hn : n ≤ 29 := by omega
    have hn28 : n ≤ 28 := by omega
    have hpow : ((17 : ℚ) / 20) ^ 28 ≤ (17 / 20 : ℚ) ^ n := by
      apply pow_le_pow_of_le_one (by norm_num) (by norm_num) hn28
    have hlb : (1 / 100 : ℚ) ≤ (17 / 20 : ℚ) ^ n := le_trans (by norm_num) hpow
    have hpos : (0 : ℚ) < (17 / 20 : ℚ) ^ n := pow_pos (by norm_num) n
    show ((updateIter n).update Animation.SPEED true).1 = _
    rw [ih hn]
    unfold AnimatedValue.update
    rw [if_neg (by simp), if_neg ?_]
    · show ({ current := lerp _ _ _, target := _ } : AnimatedValue) = _
      simp only [lerp, Animation.SPEED]
      congr 1
      ring
    · rw [not_or]
      constructor
      · simp
      · simp only [Animation.SNAP_THRESHOLD, not_lt]
        rw [abs_sub_comm, abs_of_nonneg (by linarith)]
        linarith

lemma updateIter_thirty : (updateIter 30).current = 1 := by
  have h29 := updateIter_closed 29 (le_refl 29)
  have hsmall : |(1 - (17 / 20 : ℚ) ^ 29) - 1| < 1 / 100 := by
    rw [abs_sub_comm, show (1 : ℚ) - (1 - (17 / 20 : ℚ) ^ 29) = (17 / 20 : ℚ) ^ 29 by ring,
      abs_of_nonneg (by positivity)]
    norm_num
  show (((updateIter 29).update Animation.SPEED true).1).current = 1
  rw [h29]
  unfold AnimatedValue.update
  rw [if_neg (by simp), if_pos (Or.inr (by simpa [Animation.SNAP_THRESHOLD] using hsmall))]

/-- C2: iterating update(0.15, enabled) on the AnimatedValue with current = 0
  and target = 1 is non-decreasing, never exceeds the target 1, and reaches
  current exactly 1 within a bounded number of ticks (30 ticks suffice: the
  residual shrinks by the factor 0.85 per tick until it falls below 0.01 and
  snaps). -/
theorem C2_convergence (n : ℕ) :
    ((updateIter n).current ≤ (updateIter (n + 1)).current ∧ (updateIter n).current ≤ 1) ∧
    (30 ≤ n → (updateIter n).current = 1) := by
  refine ⟨⟨updateIter_mono n, (updateIter_bounds n).2⟩, ?_⟩
  intro h30
  induction n with
  | zero => omega
  | succ n ih =>
    rcases Nat.lt_or_ge n 30 with hlt | hge
    · have h : n + 1 = 30 := by omega
      rw [h]; exact updateIter_thirty
    · have hcur := ih hge
      have ht := updateIter_target n
      show (((updateIter n).update Animation.SPEED true).1).current = 1
      unfold AnimatedValue.update
      rw [if_pos (by rw [hcur, ht])]
      exact hcur

/-- C2 witness: the bound instantiated at n = 30. -/
theorem C2_witness : 30 ≤ 30 ∧ (updateIter 30).current = 1 :=
  ⟨le_refl 30, (C2_convergence 30).2 (le_refl 30)⟩

/-- C3: with corner_rec = corner_buf = top-right, size = 10, margin = 10,
  bg_size_percent = 300 on a 1920x1080 screen, the recording indicator's
  computed target position is (1895, 25); with recording active the buffer
  indicator takes slot index 1 and its computed target position is (1855, 25),
  offset by exactly one (background_size + margin) = (30 + 10) = 40 pixel slot
  along the horizontal axis. -/
theorem C3_scenario :
    calculate_position { width := 1920, height := 1080 } DEFAULT_SETTINGS Corner.top_right 0 =
        some (1895, 25) ∧
    indicator_index DEFAULT_SETTINGS true true = 1 ∧
    calculate_position { width := 1920, height := 1080 } DEFAULT_SETTINGS Corner.top_right 1 =
        some (1855, 25) ∧
    (update_indicator_position { width := 1920, height := 1080 } DEFAULT_SETTINGS false true
        {} {}).2 = { x := 1895, y := 25 } ∧
    (update_indicator_position { width := 1920, height := 1080 } DEFAULT_SETTINGS true true
        {} {}).2 = { x := 1855, y := 25 } ∧
    (1895 - 1855 : ℤ) =
      (DEFAULT_SETTINGS.size * DEFAULT_SETTINGS.bg_size_percent / 100 + DEFAULT_SETTINGS.margin : ℕ) := by
  have hne : Corner.top_right ≠ Corner.off := fun h => Corner.noConfusion h
  refine ⟨by decide, by decide, by decide, ?_, ?_, by decide⟩
  · norm_num [update_indicator_position, indicator_index, calculate_position,
      DEFAULT_SETTINGS, ScreenGeometry.isValid, Point.isNull, hne]
  · norm_num [update_indicator_position, indicator_index, calculate_position,
      DEFAULT_SETTINGS, ScreenGeometry.isValid, Point.isNull, hne]

/-- C6: the event bridge maps each of the seven host lifecycle events to
  exactly the stated signal tuple, and any other event value produces no
  signal. -/
theorem C6_event_bridge :
    event_handler FrontendEvent.recording_starting =
        some (Signal.rec_status_changed true false) ∧
    event_handler FrontendEvent.recording_stopped =
        some (Signal.rec_status_changed false false) ∧
    event_handler FrontendEvent.recording_paused =
        some (Signal.rec_status_changed true true) ∧
    event_handler FrontendEvent.recording_unpaused =
        some (Signal.rec_status_changed true false) ∧
    event_handler FrontendEvent.replay_buffer_started =
        some (Signal.buf_status_changed true false) ∧
    event_handler FrontendEvent.replay_buffer_stopped =
        some (Signal.buf_status_changed false false) ∧
    event_handler FrontendEvent.replay_buffer_saved =
        some (Signal.buf_status_changed true true) ∧
    event_handler FrontendEvent.other = none :=
  ⟨rfl, rfl, rfl, rfl, rfl, rfl, rfl, rfl⟩

/-- C10: when the buffer status signal arrives with saved = true the handler
  sets active = true and saved = true and records the timestamp, ignoring the
  signalled active value (so it never clears the active flag); only when
  saved = false is the active flag copied from the signal. -/
theorem C10_buf_saved_signal (s : Settings) (now : ℚ) (bs : BufferState) (a b : Bool) :
    (on_buf_status_changed false s now bs a true = on_buf_status_changed false s now bs b true) ∧
    (on_buf_status_changed false s now bs a true).active = true ∧
    (on_buf_status_changed false s now bs a true).saved = true ∧
    (on_buf_status_changed false s now bs a true).saved_time = now ∧
    (on_buf_status_changed false s now bs a false).active = a ∧
    (on_buf_status_changed false s now bs a false).saved = bs.saved ∧
    (on_buf_status_changed false s now bs a false).saved_time = bs.saved_time := by
  unfold on_buf_status_changed
  split_ifs <;> simp_all

lemma update_target (v : AnimatedValue) (sp : ℚ) (e : Bool) :
    (v.update sp e).1.target = v.target := by
  unfold AnimatedValue.update
  split_ifs <;> rfl

lemma tickValues_buf_saved (s : Settings) (rs : RecordingState) (bs : BufferState) :
    ((tickValues s rs bs).1.2).saved = bs.saved := rfl

lemma tickValues_buf_check_target (s : Settings) (rs : RecordingState) (bs : BufferState) :
    ((tickValues s rs bs).1.2).checkmark_icon.target = bs.checkmark_icon.target := by
  show ((bs.checkmark_icon.update Animation.SPEED s.animate_checkmark).1).target = _
  exact update_target _ _ _

set_option maxHeartbeats 1000000 in
lemma tickTargets_buf_saved (g : ScreenGeometry) (s : Settings) (now : ℚ)
    (rs : RecordingState) (bs : BufferState) :
    ((tickTargets g s now rs bs).2).saved =
      if bs.saved ∧ now - bs.saved_time > s.checkmark_duration then false else bs.saved := by
  unfold tickTargets
  dsimp only
  split_ifs <;> rfl

set_option maxHeartbeats 1000000 in
lemma tickTargets_buf_check_target (g : ScreenGeometry) (s : Settings) (now : ℚ)
    (rs : RecordingState) (bs : BufferState) :
    ((tickTargets g s now rs bs).2).checkmark_icon.target =
      boolToRat (if bs.saved ∧ now - bs.saved_time > s.checkmark_duration then false
        else bs.saved) := by
  unfold tickTargets
  dsimp only
  split_ifs <;> rfl

/-- C5: after a buffer-save set saved = true, a tick at which the elapsed
  time since saved_time is at most checkmark_duration keeps saved true (the
  checkmark target stays 1), and any tick at which the elapsed time exceeds
  checkmark_duration clears saved and returns the checkmark icon target to 0 -
  never sooner, and not indefinitely later. -/
theorem C5_checkmark_expiry (g : ScreenGeometry) (s : Settings) (now : ℚ)
    (rs : RecordingState) (bs : BufferState) (h : bs.saved = true) :
    (now - bs.saved_time ≤ s.checkmark_duration →
      ((update_animations false g s now rs bs).1.2).saved = true ∧
      ((update_animations false g s now rs bs).1.2).checkmark_icon.target = 1) ∧
    (now - bs.saved_time > s.checkmark_duration →
      ((update_animations false g s now rs bs).1.2).saved = false ∧
      ((update_animations false g s now rs bs).1.2).checkmark_icon.target = 0) := by
  have key : (update_animations false g s now rs bs).1.2 =
      (tickValues s (tickTargets g s now rs bs).1 (tickTargets g s now rs bs).2).1.2 := rfl
  constructor
  · intro hle
    have hcond : ¬(bs.saved = true ∧ now - bs.saved_time > s.checkmark_duration) := by
      rintro ⟨_, hgt⟩; linarith
    rw [key, tickValues_buf_saved, tickValues_buf_check_target, tickTargets_buf_saved,
      tickTargets_buf_check_target, if_neg hcond]
    exact ⟨h, by rw [h]; rfl⟩
  · intro hgt
    have hcond : bs.saved = true ∧ now - bs.saved_time > s.checkmark_duration := ⟨h, hgt⟩
    rw [key, tickValues_buf_saved, tickValues_buf_check_target, tickTargets_buf_saved,
      tickTargets_buf_check_target, if_pos hcond]
    exact ⟨rfl, rfl⟩

/-- C5 witness: a save recorded at time 0 is cleared by the tick at time 2
  with the default 1.5 s checkmark duration. -/
theorem C5_witness :
    ({ saved := true } : BufferState).saved = true ∧
    ((2 : ℚ) - ({ saved := true } : BufferState).saved_time >
      DEFAULT_SETTINGS.checkmark_duration) ∧
    ((update_animations false { width := 1920, height := 1080 } DEFAULT_SETTINGS 2
        {} { saved := true }).1.2).saved = false ∧
    ((update_animations false { width := 1920, height := 1080 } DEFAULT_SETTINGS 2
        {} { saved := true }).1.2).checkmark_icon.target = 0 := by
  have hgt : (2 : ℚ) - ({ saved := true } : BufferState).saved_time >
      DEFAULT_SETTINGS.checkmark_duration := by
    show (2 : ℚ) - 0 > 3 / 2
    norm_num
  have h := (C5_checkmark_expiry { width := 1920, height := 1080 } DEFAULT_SETTINGS 2
    {} { saved := true } rfl).2 hgt
  exact ⟨rfl, hgt, h.1, h.2⟩

lemma update_indicator_position_off (g : ScreenGeometry) (s : Settings) (isBuf ra : Bool)
    (pos tp : Point) (h : (if isBuf then s.corner_buf else s.corner_rec) = Corner.off) :
    (update_indicator_position g s isBuf ra pos tp).2 = ({} : Point) := by
  unfold update_indicator_position
  rw [if_pos h]

lemma tickValues_rec_target_position (s : Settings) (rs : RecordingState) (bs : BufferState) :
    ((tickValues s rs bs).1.1).target_position = rs.target_position := rfl

lemma tickValues_buf_target_position (s : Settings) (rs : RecordingState) (bs : BufferState) :
    ((tickValues s rs bs).1.2).target_position = bs.target_position := rfl

set_option maxHeartbeats 1000000 in
lemma tickTargets_rec_target_off (g : ScreenGeometry) (s : Settings) (now : ℚ)
    (rs : RecordingState) (bs : BufferState) (h : s.corner_rec = Corner.off) :
    ((tickTargets g s now rs bs).1).target_position = ({} : Point) := by
  unfold tickTargets
  dsimp only
  simp [update_indicator_position, h]

set_option maxHeartbeats 1000000 in
lemma tickTargets_buf_target_off (g : ScreenGeometry) (s : Settings) (now : ℚ)
    (rs : RecordingState) (bs : BufferState) (h : s.corner_buf = Corner.off) :
    ((tickTargets g s now rs bs).2).target_position = ({} : Point) := by
  unfold tickTargets
  dsimp only
  split_ifs <;> simp [update_indicator_position, h]

/-- C7 (amended): when an indicator's corner setting is off the animation
  tick sets its target position to the null point; the paint routine skips an
  indicator exactly when its visibility value is below the 0.01 paint
  threshold, independently of the corner, so an off-corner indicator is only
  guaranteed not to render once its visibility is below the threshold. -/
theorem C7_amended :
    (∀ (g : ScreenGeometry) (s : Settings) (now : ℚ) (rs : RecordingState) (bs : BufferState),
      s.corner_rec = Corner.off →
        ((update_animations false g s now rs bs).1.1).target_position = ({} : Point)) ∧
    (∀ (g : ScreenGeometry) (s : Settings) (now : ℚ) (rs : RecordingState) (bs : BufferState),
      s.corner_buf = Corner.off →
        ((update_animations false g s now rs bs).1.2).target_position = ({} : Point)) ∧
    (∀ (s : Settings) (rs : RecordingState),
      rs.visibility.current < Animation.SNAP_THRESHOLD → paint_indicator_rec s rs = []) ∧
    (∀ (s : Settings) (bs : BufferState),
      bs.visibility.current < Animation.SNAP_THRESHOLD → paint_indicator_buf s bs = []) := by
  refine ⟨?_, ?_, ?_, ?_⟩
  · intro g s now rs bs h
    have key : (update_animations false g s now rs bs).1.1 =
        (tickValues s (tickTargets g s now rs bs).1 (tickTargets g s now rs bs).2).1.1 := rfl
    rw [key, tickValues_rec_target_position, tickTargets_rec_target_off g s now rs bs h]
  · intro g s now rs bs h
    have key : (update_animations false g s now rs bs).1.2 =
        (tickValues s (tickTargets g s now rs bs).1 (tickTargets g s now rs bs).2).1.2 := rfl
    rw [key, tickValues_buf_target_position, tickTargets_buf_target_off g s now rs bs h]
  · intro s rs h
    unfold paint_indicator_rec
    rw [if_pos h]
  · intro s bs h
    unfold paint_indicator_buf
    rw [if_pos h]

/-- C7 witness: the amended claim evaluated on a concrete off-corner state
  and on a state whose visibility is below the paint threshold. -/
theorem C7_witness :
    ({ corner_rec := Corner.off } : Settings).corner_rec = Corner.off ∧
    ((update_animations false { width := 1920, height := 1080 }
        { corner_rec := Corner.off } 0 { active := true } {}).1.1).target_position =
      ({} : Point) ∧
    ({ visibility := { current := 0, target := 0 } } : RecordingState).visibility.current <
      Animation.SNAP_THRESHOLD ∧
    paint_indicator_rec DEFAULT_SETTINGS
      { visibility := { current := 0, target := 0 } } = [] := by
  have h1 : ({ corner_rec := Corner.off } : Settings).corner_rec = Corner.off := rfl
  have h3 : ({ visibility := { current := 0, target := 0 } } : RecordingState).visibility.current <
      Animation.SNAP_THRESHOLD := by norm_num [Animation.SNAP_THRESHOLD]
  exact ⟨h1, C7_amended.1 _ _ 0 _ _ h1, h3, C7_amended.2.2.1 _ _ h3⟩

/-- C7 counterexample: with corner_rec = off, a recording state with
  active = true and visibility 1 still makes the paint routine emit draw
  operations, refuting the claim that an off-corner indicator is never
  rendered regardless of its visibility. -/
theorem C7_counterexample :
    ({ corner_rec := Corner.off } : Settings).corner_rec = Corner.off ∧
    ({ active := true, visibility := { current := 1, target := 1 } } : RecordingState).active
      = true ∧
    ¬({ active := true, visibility := { current := 1, target := 1 } } :
        RecordingState).visibility.current < Animation.SNAP_THRESHOLD ∧
    paint_indicator_rec { corner_rec := Corner.off }
      { active := true, visibility := { current := 1, target := 1 } } ≠ [] := by
  refine ⟨rfl, rfl, by norm_num [Animation.SNAP_THRESHOLD], ?_⟩
  norm_num [paint_indicator_rec, draw_background, draw_shape, draw_indicator,
    draw_pause_icon, pyInt, clampAlpha, Animation.SNAP_THRESHOLD, Point.toPoint, qRound]
  decide

lemma update_indicator_position_target (g : ScreenGeometry) (s : Settings) (isBuf ra : Bool)
    (pos tp : Point) (c : Corner) (i : ℕ) (px py : ℤ)
    (hc : (if isBuf then s.corner_buf else s.corner_rec) = c)
    (hi : indicator_index s isBuf ra = i)
    (hoff : c ≠ Corner.off)
    (h : calculate_position g s c i = some (px, py)) :
    (update_indicator_position g s isBuf ra pos tp).2 = { x := px, y := py } := by
  unfold update_indicator_position
  dsimp only
  rw [hc, hi, if_neg hoff, h]
  dsimp only
  split_ifs with hne <;> simp_all

lemma calc_top_left (g : ScreenGeometry) (s : Settings) (i : ℕ) (hv : g.isValid = true) :
    calculate_position g s Corner.top_left i =
      some (((s.margin + s.size * s.bg_size_percent / 100 / 2 +
          i * (s.size * s.bg_size_percent / 100 + s.margin) : ℕ) : ℤ),
        ((s.margin + s.size * s.bg_size_percent / 100 / 2 : ℕ) : ℤ)) := by
  unfold calculate_position
  rw [if_neg (by simp [hv])]

lemma calc_top_right (g : ScreenGeometry) (s : Settings) (i : ℕ) (hv : g.isValid = true) :
    calculate_position g s Corner.top_right i =
      some (g.width - (s.margin : ℤ) - ((s.size * s.bg_size_percent / 100 / 2 : ℕ) : ℤ) -
          ((i * (s.size * s.bg_size_percent / 100 + s.margin) : ℕ) : ℤ),
        ((s.margin + s.size * s.bg_size_percent / 100 / 2 : ℕ) : ℤ)) := by
  unfold calculate_position
  rw [if_neg (by simp [hv])]

lemma calc_bottom_left (g : ScreenGeometry) (s : Settings) (i : ℕ) (hv : g.isValid = true) :
    calculate_position g s Corner.bottom_left i =
      some (((s.margin + s.size * s.bg_size_percent / 100 / 2 +
          i * (s.size * s.bg_size_percent / 100 + s.margin) : ℕ) : ℤ),
        g.height - (s.margin : ℤ) - ((s.size * s.bg_size_percent / 100 / 2 : ℕ) : ℤ)) := by
  unfold calculate_position
  rw [if_neg (by simp [hv])]

lemma calc_bottom_right (g : ScreenGeometry) (s : Settings) (i : ℕ) (hv : g.isValid = true) :
    calculate_position g s Corner.bottom_right i =
      some (g.width - (s.margin : ℤ) - ((s.size * s.bg_size_percent / 100 / 2 : ℕ) : ℤ) -
          ((i * (s.size * s.bg_size_percent / 100 + s.margin) : ℕ) : ℤ),
        g.height - (s.margin : ℤ) - ((s.size * s.bg_size_percent / 100 / 2 : ℕ) : ℤ)) := by
  unfold calculate_position
  rw [if_neg (by simp [hv])]

/-- C8 (amended): when both indicators share the same non-off corner and
  recording is active, the buffer indicator takes the second slot (index 1)
  and its computed target position is offset from the recording indicator's
  along the corner's horizontal axis by exactly one slot equal to
  (background_size + margin), where background_size =
  int(size * bg_size_percent / 100) - not (size + margin). -/
theorem C8_amended (g : ScreenGeometry) (s : Settings) (p1 t1 p2 t2 : Point)
    (hv : g.isValid = true) (hsame : s.corner_rec = s.corner_buf)
    (hoff : s.corner_rec ≠ Corner.off) :
    indicator_index s false true = 0 ∧
    indicator_index s true true = 1 ∧
    ((update_indicator_position g s true true p2 t2).2).y =
      ((update_indicator_position g s false true p1 t1).2).y ∧
    |((update_indicator_position g s false true p1 t1).2).x -
        ((update_indicator_position g s true true p2 t2).2).x| =
      ((s.size * s.bg_size_percent / 100 + s.margin : ℕ) : ℚ) := by
  have hoffb : s.corner_buf ≠ Corner.off := fun h => hoff (hsame.trans h)
  have hi0 : indicator_index s false true = 0 := by simp [indicator_index]
  have hi1 : indicator_index s true true = 1 := by simp [indicator_index, hsame, hoffb]
  refine ⟨hi0, hi1, ?_⟩
  have hcb : s.corner_buf = s.corner_rec := hsame.symm
  rcases hcr : s.corner_rec with _ | _ | _ | _ | _
  · have h0 := update_indicator_position_target g s false true p1 t1 Corner.top_left 0 _ _
      (by simp [hcr]) hi0 (by decide) (calc_top_left g s 0 hv)
    have h1 := update_indicator_position_target g s true true p2 t2 Corner.top_left 1 _ _
      (by simp [hcb, hcr]) hi1 (by decide) (calc_top_left g s 1 hv)
    rw [h0, h1]
    refine ⟨rfl, ?_⟩
    rw [abs_sub_comm, abs_of_nonneg (by push_cast; ring_nf; positivity)]
    push_cast
    ring_nf
    norm_cast
  · have h0 := update_indicator_position_target g s false true p1 t1 Corner.top_right 0 _ _
      (by simp [hcr]) hi0 (by decide) (calc_top_right g s 0 hv)
    have h1 := update_indicator_position_target g s true true p2 t2 Corner.top_right 1 _ _
      (by simp [hcb, hcr]) hi1 (by decide) (calc_top_right g s 1 hv)
    rw [h0, h1]
    refine ⟨rfl, ?_⟩
    rw [abs_of_nonneg (by push_cast; ring_nf; positivity)]
    push_cast
    ring_nf
    norm_cast
  · have h0 := update_indicator_position_target g s false true p1 t1 Corner.bottom_left 0 _ _
      (by simp [hcr]) hi0 (by decide) (calc_bottom_left g s 0 hv)
    have h1 := update_indicator_position_target g s true true p2 t2 Corner.bottom_left 1 _ _
      (by simp [hcb, hcr]) hi1 (by decide) (calc_bottom_left g s 1 hv)
    rw [h0, h1]
    refine ⟨rfl, ?_⟩
    rw [abs_sub_comm, abs_of_nonneg (by push_cast; ring_nf; positivity)]
    push_cast
    ring_nf
    norm_cast
  · have h0 := update_indicator_position_target g s false true p1 t1 Corner.bottom_right 0 _ _
      (by simp [hcr]) hi0 (by decide) (calc_bottom_right g s 0 hv)
    have h1 := update_indicator_position_target g s true true p2 t2 Corner.bottom_right 1 _ _
      (by simp [hcb, hcr]) hi1 (by decide) (calc_bottom_right g s 1 hv)
    rw [h0, h1]
    refine ⟨rfl, ?_⟩
    rw [abs_of_nonneg (by push_cast; ring_nf; positivity)]
    push_cast
    ring_nf
    norm_cast
  · exact absurd hcr hoff

/-- C8 counterexample: under the default settings (size 10, margin 10,
  bg_size_percent 300) on 1920x1080 the two target positions are 40 pixels
  apart, which is not (size + margin) = 20. -/
theorem C8_counterexample :
    (update_indicator_position { width := 1920, height := 1080 } DEFAULT_SETTINGS false true
        {} {}).2 = { x := 1895, y := 25 } ∧
    (update_indicator_position { width := 1920, height := 1080 } DEFAULT_SETTINGS true true
        {} {}).2 = { x := 1855, y := 25 } ∧
    |(1895 : ℚ) - 1855| ≠ ((DEFAULT_SETTINGS.size + DEFAULT_SETTINGS.margin : ℕ) : ℚ) := by
  have hne : Corner.top_right ≠ Corner.off := fun h => Corner.noConfusion h
  refine ⟨?_, ?_, ?_⟩
  · norm_num [update_indicator_position, indicator_index, calculate_position,
      DEFAULT_SETTINGS, ScreenGeometry.isValid, Point.isNull, hne]
  · norm_num [update_indicator_position, indicator_index, calculate_position,
      DEFAULT_SETTINGS, ScreenGeometry.isValid, Point.isNull, hne]
  · norm_num [DEFAULT_SETTINGS]

/-- C8 witness: the amended slot offset evaluated under the default settings
  on a 1920x1080 screen, giving a 40 pixel slot. -/
theorem C8_witness :
    ScreenGeometry.isValid { width := 1920, height := 1080 } = true ∧
    DEFAULT_SETTINGS.corner_rec = DEFAULT_SETTINGS.corner_buf ∧
    DEFAULT_SETTINGS.corner_rec ≠ Corner.off ∧
    indicator_index DEFAULT_SETTINGS true true = 1 ∧
    |((update_indicator_position { width := 1920, height := 1080 } DEFAULT_SETTINGS false true
          {} {}).2).x -
        ((update_indicator_position { width := 1920, height := 1080 } DEFAULT_SETTINGS true true
          {} {}).2).x| =
      ((DEFAULT_SETTINGS.size * DEFAULT_SETTINGS.bg_size_percent / 100 +
        DEFAULT_SETTINGS.margin : ℕ) : ℚ) := by
  have h := C8_amended { width := 1920, height := 1080 } DEFAULT_SETTINGS {} {} {} {}
    (by decide) rfl (by decide)
  exact ⟨by decide, rfl, by decide, h.2.1, h.2.2.2⟩

lemma update_change_iff (v : AnimatedValue) (sp : ℚ) (e : Bool) (hs : sp ≠ 0) :
    ((v.update sp e).2 = true) ↔ (v.update sp e).1.current ≠ v.current := by
  unfold AnimatedValue.update
  split_ifs with h1 h2
  · simp
  · simpa using fun h => h1 h.symm
  · simp only [lerp]
    constructor
    · intro _ hc
      have : (v.target - v.current) * sp = 0 := by linarith
      rcases mul_eq_zero.mp this with h | h
      · exact h1 (by linarith)
      · exact hs h
    · intro _
      trivial

lemma update_settled (v : AnimatedValue) (sp : ℚ) (e : Bool) (h : v.current = v.target) :
    v.update sp e = (v, false) := by
  unfold AnimatedValue.update
  rw [if_pos h]

lemma posAnim_change_iff (s : Settings) (pos tp : Point) :
    ((update_position_animation s pos tp).2 = true) ↔
      (update_position_animation s pos tp).1 ≠ pos := by
  unfold update_position_animation
  dsimp only
  split_ifs with h1 h2 h3 <;> simp_all
  exact fun h => h1 h.symm

lemma posAnim_settled (s : Settings) (pos tp : Point) (h : pos = tp) :
    update_position_animation s pos tp = (pos, false) := by
  unfold update_position_animation
  rw [if_pos h]


set_option maxHeartbeats 4000000 in
lemma tickValues_change_iff (s : Settings) (rs : RecordingState) (bs : BufferState) :
    ((tickValues s rs bs).2 = true ↔
      animChanged rs (tickValues s rs bs).1.1 bs (tickValues s rs bs).1.2) := by
  have hsp : Animation.SPEED ≠ 0 := by norm_num [Animation.SPEED]
  have hfl : Animation.SPEED * (if bs.flash_effect.target = 1 then (4 : ℚ) else 1) ≠ 0 :=
    mul_ne_zero hsp (by split_ifs <;> norm_num)
  have h1 := update_change_iff rs.visibility Animation.SPEED s.fade_effect hsp
  have h2 := posAnim_change_iff s rs.position rs.target_position
  have h3 := update_change_iff bs.visibility Animation.SPEED s.fade_effect hsp
  have h4 := posAnim_change_iff s bs.position bs.target_position
  have h5 := update_change_iff rs.pause_icon Animation.SPEED s.animate_pause hsp
  have h6 := update_change_iff bs.checkmark_icon Animation.SPEED s.animate_checkmark hsp
  have h7 := update_change_iff bs.dim_effect Animation.SPEED s.fade_effect hsp
  have h8 := update_change_iff bs.flash_effect
    (Animation.SPEED * (if bs.flash_effect.target = 1 then (4 : ℚ) else 1)) true hfl
  have h9 := update_change_iff rs.border_width Animation.SPEED true hsp
  have h10 := update_change_iff bs.border_width Animation.SPEED true hsp
  have h11 := update_change_iff bs.save_border_width Animation.SPEED true hsp
  unfold tickValues
  dsimp only
  simp only [animChanged, Bool.or_eq_true]
  rw [h1, h2, h3, h4, h5, h6, h7, h8, h9, h10, h11]

set_option maxHeartbeats 4000000 in
lemma tickValues_settled (s : Settings) (rs : RecordingState) (bs : BufferState)
    (h : animSettled rs bs) : tickValues s rs bs = ((rs, bs), false) := by
  obtain ⟨h1, h2, h3, h4, h5, h6, h7, h8, h9, h10, h11⟩ := h
  unfold tickValues
  dsimp only
  rw [update_settled rs.visibility Animation.SPEED s.fade_effect h1,
    update_settled rs.pause_icon Animation.SPEED s.animate_pause h2,
    update_settled rs.border_width Animation.SPEED true h3,
    posAnim_settled s rs.position rs.target_position h4,
    update_settled bs.visibility Animation.SPEED s.fade_effect h5,
    update_settled bs.checkmark_icon Animation.SPEED s.animate_checkmark h6,
    update_settled bs.dim_effect Animation.SPEED s.fade_effect h7,
    update_settled bs.flash_effect
      (Animation.SPEED * (if bs.flash_effect.target = 1 then (4 : ℚ) else 1)) true h8,
    update_settled bs.border_width Animation.SPEED true h9,
    update_settled bs.save_border_width Animation.SPEED true h10,
    posAnim_settled s bs.position bs.target_position h11]
  rfl

/-- C9 (amended): the tick requests a repaint iff the value-advancing phase
  changed some AnimatedValue current or some indicator position; when the
  state is still settled after the per-tick target refresh, the tick performs
  no repaint request and leaves the state unchanged. -/
theorem C9_amended (g : ScreenGeometry) (s : Settings) (now : ℚ)
    (rs : RecordingState) (bs : BufferState) :
    ((update_animations false g s now rs bs).2 = true ↔
      animChanged (tickTargets g s now rs bs).1 (update_animations false g s now rs bs).1.1
        (tickTargets g s now rs bs).2 (update_animations false g s now rs bs).1.2) ∧
    (animSettled (tickTargets g s now rs bs).1 (tickTargets g s now rs bs).2 →
      (update_animations false g s now rs bs).2 = false ∧
      (update_animations false g s now rs bs).1 = tickTargets g s now rs bs) := by
  have key : update_animations false g s now rs bs =
      tickValues s (tickTargets g s now rs bs).1 (tickTargets g s now rs bs).2 := rfl
  constructor
  · rw [key]
    exact tickValues_change_iff s (tickTargets g s now rs bs).1 (tickTargets g s now rs bs).2
  · intro h
    rw [key, tickValues_settled _ _ _ h]
    exact ⟨rfl, rfl⟩

/-- C9 counterexample: a state in which every AnimatedValue already has
  current = target and every position equals its target position (but with
  rec.active = true) still produces a repaint request, because the tick first
  refreshes targets from the boolean state; this refutes the claim's settled
  no-repaint condition as stated. -/
theorem C9_counterexample :
    animSettled ({ active := true } : RecordingState) ({} : BufferState) ∧
    (update_animations false { width := 1920, height := 1080 } DEFAULT_SETTINGS 0
      { active := true } {}).2 = true := by
  constructor
  · exact ⟨rfl, rfl, rfl, rfl, rfl, rfl, rfl, rfl, rfl, rfl, rfl⟩
  · norm_num [update_animations, tickTargets, tickValues, update_indicator_position,
      calculate_position, indicator_index, update_position_animation, AnimatedValue.update,
      AnimatedValue.set_target, boolToRat, lerp, Animation.SPEED, Animation.SNAP_THRESHOLD,
      Animation.POSITION_SNAP_THRESHOLD, Draw.DIM_OPACITY, DEFAULT_SETTINGS,
      ScreenGeometry.isValid, Point.isNull]

/-- C9 witness: a fully inactive default state is settled after the target
  refresh and its tick requests no repaint. -/
theorem C9_witness :
    animSettled (tickTargets { width := 1920, height := 1080 } DEFAULT_SETTINGS 0 {} {}).1
      (tickTargets { width := 1920, height := 1080 } DEFAULT_SETTINGS 0 {} {}).2 ∧
    (update_animations false { width := 1920, height := 1080 } DEFAULT_SETTINGS 0 {} {}).2 =
      false := by
  have hs : animSettled
      (tickTargets { width := 1920, height := 1080 } DEFAULT_SETTINGS 0 {} {}).1
      (tickTargets { width := 1920, height := 1080 } DEFAULT_SETTINGS 0 {} {}).2 := by
    have hne : Corner.top_right ≠ Corner.off := fun h => Corner.noConfusion h
    norm_num [animSettled, tickTargets, update_indicator_position, calculate_position,
      indicator_index, AnimatedValue.set_target, boolToRat, DEFAULT_SETTINGS,
      Draw.DIM_OPACITY, ScreenGeometry.isValid, Point.isNull, hne]
  exact ⟨hs, ((C9_amended { width := 1920, height := 1080 } DEFAULT_SETTINGS 0 {} {}).2 hs).1⟩

/-- C4: for every 24-bit RGB integer c, the conversion round-trip through the
  host's packed color format is exact:
  obs_color_to_rgb (rgb_to_obs_color c) = c. -/
theorem C4_color_roundtrip (c : ℕ) (h : c < 2 ^ 24) :
    obs_color_to_rgb (rgb_to_obs_color c) = c := by
  apply Nat.eq_of_testBit_eq
  intro i
  unfold obs_color_to_rgb rgb_to_obs_color
  rw [show (0xFF : ℕ) = 2 ^ 8 - 1 by norm_num,
    show (0xFF00 : ℕ) = (2 ^ 8 - 1) <<< 8 by norm_num [Nat.shiftLeft_eq]]
  simp only [Nat.testBit_or, Nat.testBit_and, Nat.testBit_shiftLeft, Nat.testBit_shiftRight,
    Nat.testBit_two_pow_sub_one]
  have hhi : ∀ j, 24 ≤ j → c.testBit j = false := fun j hj =>
    Nat.testBit_lt_two_pow (lt_of_lt_of_le h (Nat.pow_le_pow_right (by norm_num) hj))
  rcases Nat.lt_or_ge i 8 with h1 | h1
  · simp [show ¬(i ≥ 16) from by omega, show ¬(i ≥ 24) from by omega,
      show ¬(i ≥ 8) from by omega, h1, show ¬(16 + i ≥ 24) from by omega,
      show (16 + i ≥ 16) from by omega, show 16 + i - 16 = i from by omega,
      show ¬(16 + i < 8) from by omega, show ¬(16 + i - 8 < 8) from by omega,
      hhi (16 + (16 + i)) (by omega)]
  · rcases Nat.lt_or_ge i 16 with h2 | h2
    · simp [show ¬(i ≥ 16) from by omega, show ¬(i ≥ 24) from by omega, h1,
        show i - 8 < 8 from by omega, show ¬(i < 8) from by omega]
    · rcases Nat.lt_or_ge i 24 with h3 | h3
      · simp [show (i ≥ 16) from h2, show ¬(i ≥ 24) from by omega,
          show i - 16 < 8 from by omega, show ¬(i - 16 ≥ 24) from by omega,
          show ¬(i - 16 ≥ 16) from by omega, show ¬(i - 16 ≥ 8) from by omega,
          show 16 + (i - 16) = i from by omega, show ¬(i - 8 < 8) from by omega,
          show ¬(i < 8) from by omega]
      · simp [show ¬(i - 16 < 8) from by omega, show ¬(i - 8 < 8) from by omega,
          show ¬(i < 8) from by omega, hhi i (by omega)]

/-- C4 witness: the round-trip evaluated at the concrete color 0x123456. -/
theorem C4_witness :
    0x123456 < 2 ^ 24 ∧ obs_color_to_rgb (rgb_to_obs_color 0x123456) = 0x123456 :=
  ⟨by norm_num, C4_color_roundtrip 0x123456 (by norm_num)⟩
